import Mathlib

/-!
Verification of the ollamao gateway (OpenAI-compatible front end for Ollama
backends) against its natural-language specification.  The definitions below
are a shallow embedding of the Python source: `src/ollamao/router.py`
(`_stream_chat_completion`, `_non_stream_chat_completion`, `chat_completions`),
`src/ollamao/ollama_client.py` (`OllamaClient.chat_completion`,
`_process_streaming_response`), `src/ollamao/auth.py` (`APIKeyAuth.authenticate`,
`RequestIDMiddleware`, `get_request_id`) and `src/ollamao/config.py`
(`ConfigManager`).  External effects (wall-clock time, uuid generation, the
HTTP transport and the logging sink) are passed in as explicit parameters.
-/

namespace Ollamao

/-- An association-list read mirroring Python `dict.get` /
`Dict.__getitem__`-with-default access on string-keyed dictionaries. -/
def dictGet {β : Type} : List (String × β) → String → Option β
  | [], _ => none
  | (k, v) :: rest, key => if k = key then some v else dictGet rest key

/-- A parsed line of an Ollama backend response, as the router reads it with
`dict.get`: `message.content` (absent when the `message` object or its
`content` field is missing), the `done` flag, and the two token counters.
Mirrors the fields `_non_stream_chat_completion` and `_stream_chat_completion`
actually access. -/
structure OllamaLine where
  message_content : Option String
  done : Option Bool
  prompt_eval_count : Option Nat
  eval_count : Option Nat
  deriving DecidableEq

/-- `models.ChatMessage`: role, content, optional author name. -/
structure ChatMessage where
  role : String
  content : String
  name : Option String
  deriving DecidableEq

/-- `models.ChatCompletionUsage`. -/
structure ChatCompletionUsage where
  prompt_tokens : Nat
  completion_tokens : Nat
  total_tokens : Nat
  deriving DecidableEq

/-- `models.ChatCompletionChoice`. -/
structure ChatCompletionChoice where
  index : Nat
  message : ChatMessage
  finish_reason : Option String
  deriving DecidableEq

/-- `models.ChatCompletionResponse` (non-streaming). -/
structure ChatCompletionResponse where
  id : String
  object : String
  created : Int
  model : String
  choices : List ChatCompletionChoice
  usage : Option ChatCompletionUsage
  deriving DecidableEq

/-- `models.ChatCompletionChunkDelta`. -/
structure ChunkDelta where
  role : Option String
  content : Option String
  deriving DecidableEq

/-- `models.ChatCompletionChunkChoice`. -/
structure ChunkChoice where
  index : Nat
  delta : ChunkDelta
  finish_reason : Option String
  deriving DecidableEq

/-- `models.ChatCompletionChunk` (streaming). -/
structure ChatCompletionChunk where
  id : String
  object : String
  created : Int
  model : String
  choices : List ChunkChoice
  deriving DecidableEq

/-- Chunk constructor as `_stream_chat_completion` builds it: one choice at
index 0 with the given delta and finish reason. -/
def mkChunk (cid : String) (created : Int) (model : String)
    (delta : ChunkDelta) (fin : Option String) : ChatCompletionChunk :=
  { id := cid
    object := "chat.completion.chunk"
    created := created
    model := model
    choices := [{ index := 0, delta := delta, finish_reason := fin }] }

/-- The synthetic terminal chunk `_stream_chat_completion` emits after the
backend's first `done=true` line: empty delta, `finish_reason="stop"`. -/
def terminalChunk (cid : String) (created : Int) (model : String) :
    ChatCompletionChunk :=
  mkChunk cid created model { role := none, content := none } (some "stop")

/-- What happens to the backend line stream after its last delivered line:
it either ends normally or the transport raises an exception with the given
message (the `except Exception` branch of `_stream_chat_completion`). -/
inductive BackendOutcome
  | ok
  | error (msg : String)
  deriving DecidableEq

/-- A backend stream as `_stream_chat_completion` consumes it: the parsed
JSON lines delivered in order, then the terminating outcome. -/
structure BackendStream where
  lines : List OllamaLine
  outcome : BackendOutcome
  deriving DecidableEq

/-- One unit of output of the streaming generator, before SSE framing:
a chunk frame, the `[DONE]` end-of-stream marker, or the inline error
chunk built from a raised exception's message. -/
inductive StreamEvent
  | chunkEv (c : ChatCompletionChunk)
  | doneMarker
  | errorEv (msg : String)
  deriving DecidableEq

/-- The `async for` loop body of `_stream_chat_completion` (router.py lines
213-271) together with its surrounding `try`/`except`.  `first` is the
`first_chunk` flag: when set, the current line is consumed to emit the
role-announcement chunk (`role="assistant"`, `content=""`), discarding the
line's own content; otherwise the chunk carries the line's
`message.content` (default `""`).  A line whose `done` flag reads true also
triggers the synthetic terminal chunk and the `[DONE]` marker and breaks the
loop, so neither the remaining lines nor a pending transport error are ever
observed.  If the lines run out without a `done=true` line, the generator
ends (outcome `ok`) or the exception handler appends the inline error chunk
and the `[DONE]` marker (outcome `error`). -/
def streamLoop (cid : String) (created : Int) (model : String) :
    Bool → List OllamaLine → BackendOutcome → List StreamEvent
  | _, [], .ok => []
  | _, [], .error msg => [.errorEv msg, .doneMarker]
  | first, line :: rest, out =>
      let delta : ChunkDelta :=
        if first then { role := some "assistant", content := some "" }
        else { role := none, content := some (line.message_content.getD "") }
      let fin : Option String :=
        if line.done.getD false then some "stop" else none
      let ev := StreamEvent.chunkEv (mkChunk cid created model delta fin)
      if line.done.getD false then
        [ev, .chunkEv (terminalChunk cid created model), .doneMarker]
      else
        ev :: streamLoop cid created model false rest out

/-- `_stream_chat_completion`: the stream of generator outputs for one
request, starting with `first_chunk = True`. -/
def streamEvents (cid : String) (created : Int) (model : String)
    (bs : BackendStream) : List StreamEvent :=
  streamLoop cid created model true bs.lines bs.outcome

/-- Whether an event is a chunk whose delta carries the given content. -/
def carriesContent (s : String) : StreamEvent → Bool
  | .chunkEv c => c.choices.any fun ch => ch.delta.content = some s
  | _ => false

/-! ### SSE framing (`yield f"data: ..."` in `_stream_chat_completion`)

`ChatCompletionChunk.model_dump_json()` is pydantic's compact JSON dump:
fields in declaration order, `None` serialized as `null`, separators without
spaces.  The error chunk, by contrast, is a plain Python `dict` interpolated
into an f-string, i.e. its `repr` with single-quoted keys and values. -/

/-- JSON string literal (the ids, models and contents used here contain no
characters needing escapes). -/
def jsonStr (s : String) : String := "\"" ++ s ++ "\""

/-- JSON dump of an optional string field: `null` when `None`. -/
def jsonOfOptStr : Option String → String
  | none => "null"
  | some s => jsonStr s

/-- JSON dump of `ChatCompletionChunkDelta`. -/
def deltaJson (d : ChunkDelta) : String :=
  "\x7b\"role\":" ++ jsonOfOptStr d.role ++ ",\"content\":"
    ++ jsonOfOptStr d.content ++ "\x7d"

/-- JSON dump of `ChatCompletionChunkChoice`. -/
def choiceJson (ch : ChunkChoice) : String :=
  "\x7b\"index\":" ++ toString ch.index ++ ",\"delta\":" ++ deltaJson ch.delta
    ++ ",\"finish_reason\":" ++ jsonOfOptStr ch.finish_reason ++ "\x7d"

/-- JSON dump of `ChatCompletionChunk` (`model_dump_json`). -/
def chunkJson (c : ChatCompletionChunk) : String :=
  "\x7b\"id\":" ++ jsonStr c.id ++ ",\"object\":" ++ jsonStr c.object
    ++ ",\"created\":" ++ toString c.created ++ ",\"model\":" ++ jsonStr c.model
    ++ ",\"choices\":[" ++ String.intercalate "," (c.choices.map choiceJson)
    ++ "]\x7d"

/-- Python `str()` of the `error_chunk` dict built in
`_stream_chat_completion`'s exception handler: the f-string
`f"data: \x7berror_chunk\x7d\n\n"` interpolates the dict's `repr`, which uses
single quotes — not JSON. -/
def pyErrorChunkRepr (msg : String) : String :=
  "\x7b\x27error\x27: \x7b\x27message\x27: \x27" ++ msg
    ++ "\x27, \x27type\x27: \x27server_error\x27, \x27code\x27: "
    ++ "\x27streaming_error\x27\x7d\x7d"

/-- The text frame yielded for each generator output. -/
def renderEvent : StreamEvent → String
  | .chunkEv c => "data: " ++ chunkJson c ++ "\n\n"
  | .doneMarker => "data: [DONE]\n\n"
  | .errorEv msg => "data: " ++ pyErrorChunkRepr msg ++ "\n\n"

/-- The SSE frames `_stream_chat_completion` yields for one request. -/
def streamFrames (cid : String) (created : Int) (model : String)
    (bs : BackendStream) : List String :=
  (streamEvents cid created model bs).map renderEvent

/-! ### A JSON syntax checker

A recursive-descent validator for JSON text (RFC 8259 grammar, with the
usual string-escape and number rules slightly relaxed), used to state which
frames carry valid JSON payloads.  Fuel bounds the nesting depth; one unit of
fuel is spent per nested value, and every nested value consumes at least one
character, so `length + 1` fuel is always enough. -/

/-- '"' -/
def dquoteChar : Char := Char.ofNat 34

/-- backslash -/
def backslashChar : Char := Char.ofNat 92

/-- opening curly brace -/
def lbraceChar : Char := Char.ofNat 123

/-- closing curly brace -/
def rbraceChar : Char := Char.ofNat 125

/-- JSON insignificant whitespace. -/
def isWsChar (c : Char) : Bool := c = ' ' || c = '\n' || c = '\t' || c = '\r'

/-- Drop leading JSON whitespace. -/
def skipWs : List Char → List Char
  | [] => []
  | c :: cs => if isWsChar c then skipWs cs else c :: cs

/-- Consume the remainder of a JSON string after its opening quote; a
backslash escapes the following character. -/
def parseStringBody : List Char → Option (List Char)
  | [] => none
  | c :: cs =>
      if c = dquoteChar then some cs
      else if c = backslashChar then
        match cs with
        | [] => none
        | _ :: cs2 => parseStringBody cs2
      else parseStringBody cs

/-- Characters a JSON number may continue with. -/
def isNumChar (c : Char) : Bool :=
  c.isDigit || c = '.' || c = '-' || c = '+' || c = 'e' || c = 'E'

/-- Consume the remainder of a number token. -/
def takeNum : List Char → List Char
  | [] => []
  | c :: cs => if isNumChar c then takeNum cs else c :: cs

/-- Expect the literal characters `lit` at the head of the input. -/
def dropLit : List Char → List Char → Option (List Char)
  | [], s => some s
  | _ :: _, [] => none
  | c :: cs, d :: ds => if c = d then dropLit cs ds else none

mutual

/-- Consume one JSON value; returns the unconsumed rest on success. -/
def parseVal : Nat → List Char → Option (List Char)
  | 0, _ => none
  | fuel + 1, s =>
    match s with
    | [] => none
    | c :: cs =>
      if c = dquoteChar then parseStringBody cs
      else if c = lbraceChar then
        match skipWs cs with
        | [] => none
        | c2 :: cs2 =>
          if c2 = rbraceChar then some cs2
          else parseMembers fuel (c2 :: cs2)
      else if c = '[' then
        match skipWs cs with
        | [] => none
        | c2 :: cs2 =>
          if c2 = ']' then some cs2
          else parseItems fuel (c2 :: cs2)
      else if c = '-' || c.isDigit then some (takeNum cs)
      else if c = 't' then dropLit ['r', 'u', 'e'] cs
      else if c = 'f' then dropLit ['a', 'l', 's', 'e'] cs
      else if c = 'n' then dropLit ['u', 'l', 'l'] cs
      else none

/-- Consume `string : value (, string : value)* RBRACE` after an opening
brace whose body is nonempty. -/
def parseMembers : Nat → List Char → Option (List Char)
  | 0, _ => none
  | fuel + 1, s =>
    match s with
    | [] => none
    | c :: cs =>
      if c = dquoteChar then
        match parseStringBody cs with
        | none => none
        | some rest =>
          match skipWs rest with
          | ':' :: rest2 =>
            match parseVal fuel (skipWs rest2) with
            | none => none
            | some rest3 =>
              match skipWs rest3 with
              | [] => none
              | c4 :: rest4 =>
                if c4 = rbraceChar then some rest4
                else if c4 = ',' then parseMembers fuel (skipWs rest4)
                else none
          | _ => none
      else none

/-- Consume `value (, value)* ]` after an opening bracket whose body is
nonempty. -/
def parseItems : Nat → List Char → Option (List Char)
  | 0, _ => none
  | fuel + 1, s =>
    match parseVal fuel s with
    | none => none
    | some rest =>
      match skipWs rest with
      | [] => none
      | c :: rest2 =>
        if c = ']' then some rest2
        else if c = ',' then parseItems fuel (skipWs rest2)
        else none

end

/-- Whether a string is a single well-formed JSON value (surrounded by
optional whitespace). -/
def jsonOk (s : String) : Bool :=
  match parseVal (s.length + 1) (skipWs s.data) with
  | none => false
  | some rest => (skipWs rest).isEmpty

/-! ### Non-streaming translation (`_non_stream_chat_completion`) -/

/-- `_non_stream_chat_completion` (router.py lines 122-188): token counters
read with default 0, message content with default `""`, `done=true` mapped to
`finish_reason="stop"` (absent/false to `None`), and
`total_tokens = prompt_tokens + completion_tokens`. -/
def nonStreamChatCompletion (request_id : String) (created : Int)
    (model : String) (resp : OllamaLine) : ChatCompletionResponse :=
  let prompt_tokens := resp.prompt_eval_count.getD 0
  let completion_tokens := resp.eval_count.getD 0
  { id := "chatcmpl-" ++ request_id
    object := "chat.completion"
    created := created
    model := model
    choices := [{ index := 0
                  message := { role := "assistant"
                               content := resp.message_content.getD ""
                               name := none }
                  finish_reason :=
                    if resp.done.getD false then some "stop" else none }]
    usage := some { prompt_tokens := prompt_tokens
                    completion_tokens := completion_tokens
                    total_tokens := prompt_tokens + completion_tokens } }

/-! ### Authentication (`auth.APIKeyAuth.authenticate`) -/

/-- `config.APIKeyConfig`. -/
structure APIKeyConfig where
  name : String
  quota : String
  enabled : Bool
  deriving DecidableEq

/-- Result of `APIKeyAuth.authenticate`: the key's configuration, or the
`HTTPException` it raises (status code, `detail` string, and whether the
`WWW-Authenticate: Bearer` header is attached). -/
inductive AuthResult
  | ok (cfg : APIKeyConfig)
  | httpError (statusCode : Nat) (detail : String) (wwwAuthenticateBearer : Bool)
  deriving DecidableEq

/-- `APIKeyAuth.authenticate` (auth.py lines 44-103): missing header,
unknown key and disabled key each raise a 401 with `WWW-Authenticate: Bearer`;
the `detail` strings are the exception messages `str(e)`. -/
def authenticate (keys : List (String × APIKeyConfig))
    (credentials : Option String) : AuthResult :=
  match credentials with
  | none => .httpError 401 "Authorization header required" true
  | some api_key =>
    match dictGet keys api_key with
    | none => .httpError 401 "Invalid API key" true
    | some key_config =>
      if key_config.enabled then .ok key_config
      else .httpError 401 "API key is disabled" true

/-! ### Configuration (`config.ConfigManager`) -/

/-- `config.ModelConfig`. -/
structure ModelConfig where
  port : Nat
  model : String
  quant : Option String
  host : String
  timeout : Nat
  max_retries : Nat
  deriving DecidableEq

/-- The mutable state of `ConfigManager` relevant to model lookup: the
models mapping currently on disk (`models.yaml`) and the `_models_cache`
memo. -/
structure ConfigState where
  fileModels : List (String × ModelConfig)
  modelsCache : Option (List (String × ModelConfig))
  deriving DecidableEq

/-- `ConfigManager.load_models` (config.py lines 81-99), value returned at
the current state: the cache when populated, otherwise the file contents. -/
def load_models (s : ConfigState) : List (String × ModelConfig) :=
  match s.modelsCache with
  | some cached => cached
  | none => s.fileModels

/-- State after `load_models`: the returned mapping is memoized. -/
def load_models_state (s : ConfigState) : ConfigState :=
  { s with modelsCache := some (load_models s) }

/-- `ConfigManager.reload_config`: drops the cache. -/
def reload_config (s : ConfigState) : ConfigState :=
  { s with modelsCache := none }

/-- `ConfigManager.get_model_config`. -/
def get_model_config (s : ConfigState) (model_name : String) :
    Option ModelConfig :=
  dictGet (load_models s) model_name

/-- `ConfigManager.list_available_models`. -/
def list_available_models (s : ConfigState) : List String :=
  (load_models s).map Prod.fst

/-- Python `repr` of a simple string (no quotes/escapes inside). -/
def pyStrRepr (s : String) : String := "\x27" ++ s ++ "\x27"

/-- Python `str()` of a list of strings, as interpolated by the f-string in
`OllamaClient.chat_completion`. -/
def pyListRepr (xs : List String) : String :=
  "[" ++ String.intercalate ", " (xs.map pyStrRepr) ++ "]"

/-- The `OllamaModelNotFoundError` message built at ollama_client.py lines
70-76 when the requested model is missing from the route table: it embeds
`list_available_models()` evaluated on the config state at that moment. -/
def modelNotFoundMessage (s : ConfigState) (model : String) : String :=
  "Model \x27" ++ model ++ "\x27 not found. Available models: "
    ++ pyListRepr (list_available_models s)

/-! ### Backend request payload (`OllamaClient.chat_completion`) -/

/-- `models.ChatCompletionRequest`: the validated request body.  Float
fields are carried opaquely (they are never computed on), modelled as
rationals. -/
structure ChatCompletionRequest where
  model : String
  messages : List ChatMessage
  temperature : Option Rat
  max_tokens : Option Nat
  top_p : Option Rat
  frequency_penalty : Option Rat
  presence_penalty : Option Rat
  stream : Bool
  stop : Option (List String)
  user : Option String
  deriving DecidableEq

/-- The pydantic field constraints on `ChatCompletionRequest`
(models.py lines 22-52): roles restricted to the three literals,
`temperature` and `top_p` in [0,1], `max_tokens` positive, the two penalty
fields in [-2,2]. -/
def validRequest (r : ChatCompletionRequest) : Bool :=
  r.messages.all
      (fun m => m.role = "system" || m.role = "user" || m.role = "assistant")
    && (match r.temperature with
        | none => true
        | some t => decide (0 ≤ t ∧ t ≤ 1))
    && (match r.max_tokens with
        | none => true
        | some m => decide (0 < m))
    && (match r.top_p with
        | none => true
        | some t => decide (0 ≤ t ∧ t ≤ 1))
    && (match r.frequency_penalty with
        | none => true
        | some t => decide (-2 ≤ t ∧ t ≤ 2))
    && (match r.presence_penalty with
        | none => true
        | some t => decide (-2 ≤ t ∧ t ≤ 2))

/-- The `options` sub-object of the backend payload. -/
structure OllamaOptions where
  temperature : Option Rat
  num_predict : Option Nat
  deriving DecidableEq

/-- The backend-native request payload (`payload` dict in
`OllamaClient.chat_completion`, lines 81-97). -/
structure OllamaPayload where
  model : String
  messages : List (String × String)
  stream : Bool
  options : Option OllamaOptions
  deriving DecidableEq

/-- The `options` construction: `temperature` creates the sub-object,
`max_tokens` is renamed `num_predict` (creating the sub-object via
`setdefault` when needed); no key when both are absent. -/
def buildPayloadOptions (temperature : Option Rat) (max_tokens : Option Nat) :
    Option OllamaOptions :=
  match temperature, max_tokens with
  | none, none => none
  | t, m => some { temperature := t, num_predict := m }

/-- The role/content projection both router handlers apply to the request's
messages (router.py lines 130-132 and 202-204). -/
def ollamaMessages (msgs : List ChatMessage) : List (String × String) :=
  msgs.map fun m => (m.role, m.content)

/-- The backend-native payload produced for a request routed to
`model_config`.  The router forwards only `temperature` and `max_tokens` as
keyword arguments (router.py lines 134-139 and 206-211); they bind to the
client's named parameters, so the client's catch-all `kwargs` loop adds
nothing, and no other request field reaches the payload. -/
def buildPayload (model_config : ModelConfig) (req : ChatCompletionRequest) :
    OllamaPayload :=
  { model := model_config.model
    messages := ollamaMessages req.messages
    stream := req.stream
    options := buildPayloadOptions req.temperature req.max_tokens }

/-! ### Raw line handling (`OllamaClient._process_streaming_response`) -/

/-- One raw line of the backend's line-delimited stream, classified the way
the code observes it: blank after `strip()`, failing `json.loads`, or
parsing to a JSON object. -/
inductive RawLine
  | blank
  | malformed
  | parsedOk (data : OllamaLine)
  deriving DecidableEq

/-- `_process_streaming_response` (ollama_client.py lines 155-183): blank
lines are skipped, lines raising `JSONDecodeError` hit the `continue`
branch, every successfully parsed line is yielded unchanged, in order. -/
def processStreamingResponse : List RawLine → List OllamaLine
  | [] => []
  | .blank :: rest => processStreamingResponse rest
  | .malformed :: rest => processStreamingResponse rest
  | .parsedOk d :: rest => d :: processStreamingResponse rest

/-! ### Request-ID plumbing (`auth.RequestIDMiddleware`, `auth.get_request_id`) -/

/-- `RequestIDMiddleware.__call__`: the generated per-request uuid is stored
as an *item* of the ASGI scope dict (`scope["request_id"] = request_id`). -/
def middlewareScopeItems (request_id : String) : List (String × String) :=
  [("request_id", request_id)]

/-- `RequestIDMiddleware.send_with_request_id`: appends the
`x-request-id` response header carrying the generated uuid. -/
def middlewareResponseHeaders (base : List (String × String))
    (request_id : String) : List (String × String) :=
  base ++ [("x-request-id", request_id)]

/-- The data attributes of a Python `dict` *instance*: a dict stores its
entries as items, not as attributes, so this table is empty whatever the
items are.  (`getattr` on the ASGI scope therefore never sees the
`"request_id"` item.) -/
def dictAttributeTable (_items : List (String × String)) :
    List (String × String) := []

/-- Python `getattr(obj, name, default)`: attribute lookup with a
fallback. -/
def pyGetattr (attrs : List (String × String))
    (attr_name default_value : String) : String :=
  (dictGet attrs attr_name).getD default_value

/-- `auth.get_request_id` (auth.py lines 163-165):
`getattr(request.scope, "request_id", "unknown")`.  `request.scope` is the
ASGI scope, a plain dict, so the attribute lookup consults
`dictAttributeTable` of its items. -/
def get_request_id (scope : List (String × String)) : String :=
  pyGetattr (dictAttributeTable scope) "request_id" "unknown"

/-! ### Gateway orchestration (`router.chat_completions`) -/

/-- The upstream transport for a non-streaming call: the single parsed
response body, or a raised transport error (timeout / connect failure /
bad status), surfaced as an `OllamaError` message. -/
inductive BackendReply
  | line (resp : OllamaLine)
  | transportError (msg : String)

/-- The value `chat_completions` hands back to the HTTP layer: an
`HTTPException` (status, `detail` message, `WWW-Authenticate` flag), a
non-streaming `ChatCompletionResponse`, or a `StreamingResponse` whose body
is the list of SSE frames. -/
inductive GatewayReturn
  | errorResp (statusCode : Nat) (detail : String) (wwwAuthenticateBearer : Bool)
  | completion (resp : ChatCompletionResponse)
  | streamResp (frames : List String)

/-- `chat_completions` (router.py lines 64-119) with its two handlers.  The
second component counts upstream HTTP calls actually attempted
(`http_client.stream(...)` in the client).  The `api_key_auth.get_current_user`
dependency runs before the handler body, so an authentication failure
returns before anything else happens.  An unknown model raises
`OllamaModelNotFoundError` *before* the HTTP call: on the non-streaming path
it is caught as an `OllamaError` and mapped to 503 (the `detail` field
records the error envelope's message), on the streaming path it is raised
inside the lazy generator and handled by `_stream_chat_completion`'s
exception handler as an inline error chunk. -/
def gatewayChatCompletions (keys : List (String × APIKeyConfig))
    (cfg : ConfigState) (backend : OllamaPayload → BackendReply)
    (backendStream : OllamaPayload → BackendStream)
    (credential : Option String) (req : ChatCompletionRequest)
    (request_id : String) (created : Int) : GatewayReturn × Nat :=
  match authenticate keys credential with
  | .httpError s d w => (.errorResp s d w, 0)
  | .ok _user =>
    match get_model_config cfg req.model with
    | none =>
      if req.stream then
        (.streamResp (streamFrames ("chatcmpl-" ++ request_id) created
            req.model
            { lines := [], outcome := .error (modelNotFoundMessage cfg req.model) }),
         0)
      else
        (.errorResp 503 (modelNotFoundMessage cfg req.model) false, 0)
    | some model_config =>
      let payload := buildPayload model_config req
      if req.stream then
        (.streamResp (streamFrames ("chatcmpl-" ++ request_id) created
            req.model (backendStream payload)), 1)
      else
        match backend payload with
        | .line resp =>
            (.completion (nonStreamChatCompletion request_id created req.model resp), 1)
        | .transportError msg => (.errorResp 503 msg false, 1)

/-! ## Concrete fixtures used across claims -/

/-- Backend line `\x7bmessage:\x7bcontent:"he"\x7d,done:false\x7d`. -/
def lineHe : OllamaLine :=
  { message_content := some "he", done := some false
    prompt_eval_count := none, eval_count := none }

/-- Backend line `\x7bmessage:\x7bcontent:"llo"\x7d,done:true,eval_count:2\x7d`. -/
def lineLlo : OllamaLine :=
  { message_content := some "llo", done := some true
    prompt_eval_count := none, eval_count := some 2 }

/-- `_process_streaming_response` keeps exactly the parsed payloads. -/
def rawPayload : RawLine → Option OllamaLine
  | .parsedOk d => some d
  | _ => none

/-! ## Claims -/

/-- C1 (counterexample): for the backend stream
`he`/`done:false` then `llo`/`done:true`, the gateway does emit four frames,
but no frame carries the first line's content `"he"`: the first backend line
is consumed to build the role-announcement chunk and its content is
discarded, so the claimed frame sequence (role, "he", "llo"+stop, [DONE]) is
wrong. -/
theorem c1_counterexample :
    (streamEvents "chatcmpl-rid" 0 "llama3"
        { lines := [lineHe, lineLlo], outcome := .ok }).length = 4
      ∧ (streamEvents "chatcmpl-rid" 0 "llama3"
        { lines := [lineHe, lineLlo], outcome := .ok }).any
          (carriesContent "he") = false := by
  constructor <;> rfl

/-- C1 (amended): for that backend stream the gateway emits exactly four
frames: the role-announcement chunk (`delta.role="assistant"`, empty
content) built from the first backend line — whose content `"he"` is
dropped — then a content chunk carrying `"llo"` with `finish_reason="stop"`,
then the synthetic terminal chunk (empty delta, `finish_reason="stop"`),
then the `[DONE]` marker. -/
theorem c1_amended :
    streamEvents "chatcmpl-rid" 0 "llama3"
        { lines := [lineHe, lineLlo], outcome := .ok }
      = [.chunkEv (mkChunk "chatcmpl-rid" 0 "llama3"
            { role := some "assistant", content := some "" } none),
         .chunkEv (mkChunk "chatcmpl-rid" 0 "llama3"
            { role := none, content := some "llo" } (some "stop")),
         .chunkEv (terminalChunk "chatcmpl-rid" 0 "llama3"),
         .doneMarker] := by
  rfl

/-- C3: the concrete stub-backend scenario yields one choice with content
`"hello"`, `finish_reason="stop"` and `usage = (3, 2, 5)`; and in general
`done=true` maps to `finish_reason="stop"` (absent/false to none), a missing
message content defaults to `""`, and `total_tokens` is the sum of the other
two counters. -/
theorem c3_nonstream_translation :
    nonStreamChatCompletion "rid" 12345 "llama3"
        { message_content := some "hello", done := some true,
          prompt_eval_count := some 3, eval_count := some 2 }
      = { id := "chatcmpl-rid", object := "chat.completion", created := 12345,
          model := "llama3",
          choices := [{ index := 0,
                        message := { role := "assistant", content := "hello",
                                     name := none },
                        finish_reason := some "stop" }],
          usage := some { prompt_tokens := 3, completion_tokens := 2,
                          total_tokens := 5 } }
    ∧ ∀ (rid : String) (created : Int) (model : String) (resp : OllamaLine),
        (nonStreamChatCompletion rid created model resp).choices.map
            (fun c => c.finish_reason)
          = [if resp.done.getD false then some "stop" else none]
        ∧ (nonStreamChatCompletion rid created model resp).choices.map
            (fun c => c.message.content)
          = [resp.message_content.getD ""]
        ∧ ∀ u ∈ (nonStreamChatCompletion rid created model resp).usage,
            u.total_tokens = u.prompt_tokens + u.completion_tokens := by
  refine ⟨by rfl, fun rid created model resp => ⟨rfl, rfl, ?_⟩⟩
  intro u hu
  simp only [nonStreamChatCompletion, Option.mem_def, Option.some.injEq] at hu
  subst hu
  rfl

/-- C4 (counterexample): a disabled key and an unknown key both get status
401, but the `detail` messages differ — `"API key is disabled"` versus
`"Invalid API key"` — so the response does reveal that the disabled key
exists, contradicting the indistinguishability claim. -/
theorem c4_counterexample :
    authenticate [("sk-live", { name := "alice", quota := "unlimited",
                                enabled := false })] (some "sk-live")
        = .httpError 401 "API key is disabled" true
      ∧ authenticate [("sk-live", { name := "alice", quota := "unlimited",
                                    enabled := false })] (some "sk-other")
        = .httpError 401 "Invalid API key" true
      ∧ "API key is disabled" ≠ "Invalid API key" := by
  refine ⟨rfl, rfl, by decide⟩

/-- C4 (amended): a disabled key and an unknown key both yield status 401
with the `WWW-Authenticate: Bearer` header, but with distinct fixed messages
(`"API key is disabled"` and `"Invalid API key"` respectively), so a caller
can distinguish the two cases. -/
theorem c4_amended (keys : List (String × APIKeyConfig)) (k1 k2 : String)
    (cfg : APIKeyConfig) (h1 : dictGet keys k1 = some cfg)
    (h2 : cfg.enabled = false) (h3 : dictGet keys k2 = none) :
    authenticate keys (some k1) = .httpError 401 "API key is disabled" true
      ∧ authenticate keys (some k2) = .httpError 401 "Invalid API key" true := by
  constructor <;> simp [authenticate, h1, h2, h3]

/-- C4 (witness): the amended theorem at a concrete one-key table. -/
theorem c4_amended_witness :
    authenticate [("sk-live", { name := "alice", quota := "unlimited",
                                enabled := false })] (some "sk-live")
        = .httpError 401 "API key is disabled" true
      ∧ authenticate [("sk-live", { name := "alice", quota := "unlimited",
                                    enabled := false })] (some "sk-other")
        = .httpError 401 "Invalid API key" true :=
  c4_amended [("sk-live", { name := "alice", quota := "unlimited",
                            enabled := false })]
    "sk-live" "sk-other" { name := "alice", quota := "unlimited",
                           enabled := false }
    (by decide) (by decide) (by decide)

/-- A concrete valid request used by witnesses. -/
def sampleRequest : ChatCompletionRequest :=
  { model := "llama3"
    messages := [{ role := "user", content := "hi", name := none }]
    temperature := none, max_tokens := none, top_p := none
    frequency_penalty := none, presence_penalty := none
    stream := false, stop := none, user := none }

/-- C5: a request with no valid credential — missing header, unknown key or
disabled key — is answered with status 401 carrying the
`WWW-Authenticate: Bearer` header, and zero upstream HTTP calls are
attempted, whatever the rest of the request, the route table and the
backend. -/
theorem c5_unauthenticated_no_upstream_call
    (keys : List (String × APIKeyConfig)) (cfg : ConfigState)
    (backend : OllamaPayload → BackendReply)
    (backendStream : OllamaPayload → BackendStream)
    (credential : Option String) (req : ChatCompletionRequest)
    (request_id : String) (created : Int)
    (h : ¬ ∃ k c, credential = some k ∧ dictGet keys k = some c
        ∧ c.enabled = true) :
    ∃ d, gatewayChatCompletions keys cfg backend backendStream credential req
        request_id created
      = (.errorResp 401 d true, 0) := by
  cases credential with
  | none =>
      exact ⟨"Authorization header required",
        by simp [gatewayChatCompletions, authenticate]⟩
  | some k =>
      cases hk : dictGet keys k with
      | none =>
          exact ⟨"Invalid API key",
            by simp [gatewayChatCompletions, authenticate, hk]⟩
      | some c =>
          have hc : c.enabled = false := by
            cases he : c.enabled with
            | false => rfl
            | true => exact absurd ⟨k, c, rfl, hk, he⟩ h
          exact ⟨"API key is disabled",
            by simp [gatewayChatCompletions, authenticate, hk, hc]⟩

/-- C5 (witness): a request with no `Authorization` header against an empty
key table: 401 with the Bearer challenge and zero upstream calls. -/
theorem c5_witness :
    ∃ d, gatewayChatCompletions [] { fileModels := [], modelsCache := none }
        (fun _ => .transportError "spy") (fun _ => { lines := [], outcome := .ok })
        none sampleRequest "rid" 0
      = (.errorResp 401 d true, 0) :=
  c5_unauthenticated_no_upstream_call [] { fileModels := [], modelsCache := none }
    (fun _ => .transportError "spy") (fun _ => { lines := [], outcome := .ok })
    none sampleRequest "rid" 0
    (by rintro ⟨k, c, hk, -, -⟩; exact Option.noConfusion hk)

/-- C7: a line that fails to parse as JSON is silently discarded — the
output is exactly the parsed payloads of the well-formed lines, unchanged
and in order, and deleting a malformed line from anywhere in the stream
leaves the output untouched (it neither terminates the stream, nor errors,
nor appears as a chunk). -/
theorem c7_malformed_lines_discarded :
    (∀ lines : List RawLine,
      processStreamingResponse lines = lines.filterMap rawPayload)
    ∧ ∀ xs ys : List RawLine,
      processStreamingResponse (xs ++ .malformed :: ys)
        = processStreamingResponse (xs ++ ys) := by
  have hfm : ∀ lines : List RawLine,
      processStreamingResponse lines = lines.filterMap rawPayload := by
    intro lines
    induction lines with
    | nil => rfl
    | cons l rest ih => cases l <;> simp [processStreamingResponse, rawPayload, ih]
  refine ⟨hfm, fun xs ys => ?_⟩
  simp [hfm, List.filterMap_append, rawPayload]

set_option maxRecDepth 8192 in
/-- C8 (code bug, evaluated at the failing input): when the transport raises
(here with message `"boom"`) after one delivered line, the stream does end
with an inline error chunk followed by the `[DONE]` marker — but the error
frame's payload is the Python `repr` of the `error_chunk` dict (single
quotes), because the handler interpolates the dict into the f-string instead
of JSON-dumping it, and that payload is not valid JSON, while the ordinary
chunk frames are. -/
theorem c8_error_chunk_not_json :
    streamFrames "chatcmpl-rid" 0 "llama3"
        { lines := [lineHe], outcome := .error "boom" }
      = ["data: " ++ chunkJson (mkChunk "chatcmpl-rid" 0 "llama3"
            { role := some "assistant", content := some "" } none) ++ "\n\n",
         "data: " ++ pyErrorChunkRepr "boom" ++ "\n\n",
         "data: [DONE]\n\n"]
    ∧ jsonOk (chunkJson (mkChunk "chatcmpl-rid" 0 "llama3"
        { role := some "assistant", content := some "" } none)) = true
    ∧ jsonOk (pyErrorChunkRepr "boom") = false := by
  refine ⟨rfl, by decide, by decide⟩

/-- C9 (code bug, evaluated at the failing input): for the request whose
middleware-generated id is the uuid below, the `x-request-id` response
header carries that uuid, but `get_request_id` — `getattr` on the ASGI scope
*dict* — never sees the stored item and returns `"unknown"`, so the
completion id is `"chatcmpl-unknown"` and never matches the header. -/
theorem c9_completion_id_never_matches_header :
    middlewareResponseHeaders [] "3fa85f64-5717-4562-b3fc-2c963f66afa6"
        = [("x-request-id", "3fa85f64-5717-4562-b3fc-2c963f66afa6")]
      ∧ get_request_id
          (middlewareScopeItems "3fa85f64-5717-4562-b3fc-2c963f66afa6")
        = "unknown"
      ∧ "chatcmpl-" ++ get_request_id
          (middlewareScopeItems "3fa85f64-5717-4562-b3fc-2c963f66afa6")
        ≠ "chatcmpl-" ++ "3fa85f64-5717-4562-b3fc-2c963f66afa6" := by
  refine ⟨rfl, rfl, by decide⟩

/-- C10: the backend payload of a validated request is a function of the
route's native model id and the request's messages, stream flag, temperature
and max_tokens alone — two valid requests agreeing on those fields produce
identical payloads however their top_p, frequency_penalty, presence_penalty,
stop and user fields differ. -/
theorem c10_payload_depends_only_on_five_fields (mc : ModelConfig)
    (r1 r2 : ChatCompletionRequest)
    (_hv1 : validRequest r1 = true) (_hv2 : validRequest r2 = true)
    (_hm : r1.model = r2.model) (hmsg : r1.messages = r2.messages)
    (hs : r1.stream = r2.stream) (ht : r1.temperature = r2.temperature)
    (hmt : r1.max_tokens = r2.max_tokens) :
    buildPayload mc r1 = buildPayload mc r2 := by
  simp [buildPayload, ollamaMessages, hmsg, hs, ht, hmt]

/-- The `llama3` route used by the C10 witness. -/
def mcLlama : ModelConfig :=
  { port := 11434, model := "llama3:8b", quant := none, host := "localhost",
    timeout := 30, max_retries := 3 }

/-- A valid request setting only the forwarded generation fields. -/
def requestVariantA : ChatCompletionRequest :=
  { sampleRequest with
    temperature := some (1 : Rat)
    max_tokens := some 64 }

/-- The same request with every non-forwarded optional field changed. -/
def requestVariantB : ChatCompletionRequest :=
  { requestVariantA with
    top_p := some (1 : Rat)
    frequency_penalty := some (2 : Rat)
    presence_penalty := some (-1 : Rat)
    stop := some ["###"]
    user := some "tester" }

/-- C10 (witness): both variants pass validation and produce the same
backend payload. -/
theorem c10_witness :
    buildPayload mcLlama requestVariantA = buildPayload mcLlama requestVariantB :=
  c10_payload_depends_only_on_five_fields mcLlama requestVariantA
    requestVariantB (by decide) (by decide) rfl rfl rfl rfl rfl

end Ollamao
